import Mathlib

/-!
Shallow embedding of the ASCOM telescope client adapter
(src/plugins/TelescopeControl/src/clients/TelescopeClientAscom.cpp).

The adapter mediates between the host planetarium and an external automation
driver (a QAxObject).  The driver, the spherical/rectangular coordinate helpers
from StelUtils, and the navigator epoch-conversion service are external
collaborators (their code is not part of the reviewed file), so they are
modelled as explicit state and as uninterpreted function parameters.  Every
driver access performed by the adapter is recorded in an explicit trace of
driver operations so that claims about which driver properties are read or
written, and which driver methods are called, can be stated and settled.

Numeric scalar values (right ascension, declination, radians, hours, degrees)
are kept at an abstract type S, and direction vectors at an abstract type V;
the arithmetic on them lives in the external collaborators.
-/

/-- Equinox setting from TelescopeControlGlobals.hpp (outside the reviewed
sources): which equatorial frame the device uses.  EquinoxJNow is the
current-epoch frame, EquinoxJ2000 the standard-epoch frame. -/
inductive Equinox where
  | EquinoxJ2000
  | EquinoxJNow
deriving DecidableEq

/-- Driver property name constant P_CONNECTED from the source. -/
def P_CONNECTED : String := "Connected"

/-- Driver property name constant P_PARKED from the source. -/
def P_PARKED : String := "AtPark"

/-- Driver property name constant P_TRACKING from the source. -/
def P_TRACKING : String := "Tracking"

/-- Driver property name constant P_CAN_SLEW from the source. -/
def P_CAN_SLEW : String := "CanSlew"

/-- Driver property name constant P_CAN_SLEW_ASYNCHRONOUSLY from the source. -/
def P_CAN_SLEW_ASYNCHRONOUSLY : String := "CanSlewAsync"

/-- Driver property name constant P_CAN_TRACK from the source. -/
def P_CAN_TRACK : String := "CanSetTracking"

/-- Driver property name constant P_CAN_UNPARK from the source. -/
def P_CAN_UNPARK : String := "CanUnpark"

/-- Driver property name constant P_RA from the source. -/
def P_RA : String := "RightAscension"

/-- Driver property name constant P_DEC from the source. -/
def P_DEC : String := "Declination"

/-- Driver method name constant M_UNPARK from the source. -/
def M_UNPARK : String := "Unpark()"

/-- Driver method name constant M_SLEW from the source. -/
def M_SLEW : String := "SlewToCoordinates(double, double)"

/-- Driver method name constant M_SLEW_ASYNCHRONOUSLY from the source. -/
def M_SLEW_ASYNCHRONOUSLY : String := "SlewToCoordinatesAsync(double, double)"

/-- Observable state of the external automation driver (the QAxObject
collaborator).  The fields acceptsConnect and acceptsTracking model whether
the device honours setProperty(Connected, true) and
setProperty(Tracking, true); the source only observes the property value it
reads back after writing it. -/
structure DriverState (S : Type) where
  connected : Bool
  parked : Bool
  tracking : Bool
  canSlew : Bool
  canSlewAsync : Bool
  canTrack : Bool
  canUnpark : Bool
  ra : S
  dec : S
  acceptsConnect : Bool
  acceptsTracking : Bool
deriving DecidableEq

/-- One driver access performed by the adapter: a property read, a property
write, or a dynamicCall of a named method with its scalar arguments. -/
inductive DriverOp (S : Type) where
  | getProp (name : String)
  | setProp (name : String)
  | callMethod (name : String) (args : List S)
deriving DecidableEq

/-- External collaborators of the adapter: the StelUtils angle and vector
conversions (spheToRect, rectToSphe, and the radian/hour/degree scalings) and
the navigator epoch-conversion service.  None of their code is part of the
reviewed file, so they are uninterpreted parameters of the embedding. -/
structure Externals (S V : Type) where
  hoursToRad : S → S
  degToRad : S → S
  radToHours : S → S
  radToDeg : S → S
  spheToRect : S → S → V
  rectToSphe : V → S × S
  equinoxEquToJ2000 : V → V
  j2000ToEquinoxEqu : V → V

/-- Adapter state of a TelescopeClientAscom object.  The field initialized
models the C++ condition (driver && !driver->isNull()); samples models the
contents of interpolatedPosition, newest sample first, each sample being
(direction, client capture time, server time). -/
structure TelescopeClientAscom (V : Type) where
  initialized : Bool
  equinox : Equinox
  name : String
  timeToGetPosition : Int
  samples : List (V × Int × Int)
deriving DecidableEq

/-- Modelled from the spec: the polling interval constant
POSITION_REFRESH_INTERVAL lives in TelescopeClient.hpp, which is outside the
reviewed sources; the spec gives 5,000,000 microseconds as the design value. -/
def POSITION_REFRESH_INTERVAL : Int := 5000000

/-- Effect on the driver of setProperty(Connected, true). -/
def setConnectedProp {S : Type} (d : DriverState S) : DriverState S :=
  { d with connected := d.acceptsConnect }

/-- Effect on the driver of setProperty(Tracking, true). -/
def setTrackingProp {S : Type} (d : DriverState S) : DriverState S :=
  { d with tracking := d.acceptsTracking }

/-- Effect on the driver of dynamicCall(M_UNPARK). -/
def unparkEffect {S : Type} (d : DriverState S) : DriverState S :=
  { d with parked := false }

/-- TelescopeClientAscom::isInitialized, source lines 109-115:
returns (driver && !driver->isNull()). -/
def isInitialized {V : Type} (s : TelescopeClientAscom V) : Bool :=
  s.initialized

/-- TelescopeClientAscom::isConnected, source lines 117-124: false without a
driver access when uninitialized, otherwise reads the Connected property. -/
def isConnected {S V : Type} (s : TelescopeClientAscom V) (d : DriverState S) :
    Bool × List (DriverOp S) :=
  if !isInitialized s then (false, [])
  else (d.connected, [DriverOp.getProp P_CONNECTED])

/-- TelescopeClientAscom::prepareCommunication, source lines 133-139. -/
def prepareCommunication {V : Type} (s : TelescopeClientAscom V) : Bool :=
  if !isInitialized s then false
  else true

/-- Continuation of performCommunication after the connection is ensured,
source lines 154-199: parked check, poll throttle, position read, conversion
to a direction vector, epoch conversion in JNow mode, and sample recording. -/
def performAfterConnect {S V : Type} (ext : Externals S V)
    (s : TelescopeClientAscom V) (d : DriverState S)
    (now serverTime captureTime : Int) (tr : List (DriverOp S)) :
    TelescopeClientAscom V × DriverState S × List (DriverOp S) :=
  let tr := tr ++ [DriverOp.getProp P_PARKED]
  if d.parked then (s, d, tr)
  else if now < s.timeToGetPosition then (s, d, tr)
  else
    let s1 := { s with timeToGetPosition := now + POSITION_REFRESH_INTERVAL }
    let tr := tr ++ [DriverOp.getProp P_RA, DriverOp.getProp P_DEC]
    let raRadians := ext.hoursToRad d.ra
    let decRadians := ext.degToRad d.dec
    let coordinates := ext.spheToRect raRadians decRadians
    let j2000Coordinates :=
      if s.equinox = Equinox.EquinoxJNow then ext.equinoxEquToJ2000 coordinates
      else coordinates
    ({ s1 with samples := (j2000Coordinates, captureTime, serverTime) :: s1.samples },
     d, tr)

/-- TelescopeClientAscom::performCommunication, source lines 141-199.  The
three Int arguments are the successive getNow() readings taken at the poll
throttle check, at the position read (serverTime), and at the sample
recording (captureTime). -/
def performCommunication {S V : Type} (ext : Externals S V)
    (s : TelescopeClientAscom V) (d : DriverState S)
    (now serverTime captureTime : Int) :
    TelescopeClientAscom V × DriverState S × List (DriverOp S) :=
  if !isInitialized s then (s, d, [])
  else
    let c := isConnected s d
    if !c.1 then
      let d1 := setConnectedProp d
      let tr1 := c.2 ++ [DriverOp.setProp P_CONNECTED, DriverOp.getProp P_CONNECTED]
      if !d1.connected then (s, d1, tr1)
      else performAfterConnect ext s d1 now serverTime captureTime tr1
    else performAfterConnect ext s d now serverTime captureTime c.2

/-- Final stage of telescopeGoto, source lines 266-298: epoch conversion in
JNow mode, conversion of the target vector to hour/degree angles, and the
slew call (asynchronous when supported, else synchronous when supported,
else nothing). -/
def gotoSlew {S V : Type} (ext : Externals S V) (s : TelescopeClientAscom V)
    (d : DriverState S) (j2000Coordinates : V) (tr : List (DriverOp S)) :
    DriverState S × List (DriverOp S) :=
  let targetCoordinates :=
    if s.equinox = Equinox.EquinoxJNow then ext.equinoxEquToJ2000 j2000Coordinates
    else j2000Coordinates
  let sphe := ext.rectToSphe targetCoordinates
  let raHours := ext.radToHours sphe.1
  let decDegrees := ext.radToDeg sphe.2
  let tr := tr ++ [DriverOp.getProp P_CAN_SLEW_ASYNCHRONOUSLY]
  if d.canSlewAsync then
    (d, tr ++ [DriverOp.callMethod M_SLEW_ASYNCHRONOUSLY [raHours, decDegrees]])
  else
    let tr := tr ++ [DriverOp.getProp P_CAN_SLEW]
    if d.canSlew then (d, tr ++ [DriverOp.callMethod M_SLEW [raHours, decDegrees]])
    else (d, tr)

/-- Tracking stage of telescopeGoto, source lines 247-264: when not tracking,
enable tracking if the capability is present and re-read the property,
aborting when it did not take effect or when the capability is absent. -/
def gotoAfterUnpark {S V : Type} (ext : Externals S V) (s : TelescopeClientAscom V)
    (d : DriverState S) (j2000Coordinates : V) (tr : List (DriverOp S)) :
    DriverState S × List (DriverOp S) :=
  let tr := tr ++ [DriverOp.getProp P_TRACKING]
  if !d.tracking then
    let tr := tr ++ [DriverOp.getProp P_CAN_TRACK]
    if d.canTrack then
      let d1 := setTrackingProp d
      let tr := tr ++ [DriverOp.setProp P_TRACKING, DriverOp.getProp P_TRACKING]
      if !d1.tracking then (d1, tr)
      else gotoSlew ext s d1 j2000Coordinates tr
    else (d, tr)
  else gotoSlew ext s d j2000Coordinates tr

/-- Park stage of telescopeGoto, source lines 230-245: when parked, unpark if
the capability is present, else abort. -/
def gotoAfterConnect {S V : Type} (ext : Externals S V) (s : TelescopeClientAscom V)
    (d : DriverState S) (j2000Coordinates : V) (tr : List (DriverOp S)) :
    DriverState S × List (DriverOp S) :=
  let tr := tr ++ [DriverOp.getProp P_PARKED]
  if d.parked then
    let tr := tr ++ [DriverOp.getProp P_CAN_UNPARK]
    if d.canUnpark then
      gotoAfterUnpark ext s (unparkEffect d) j2000Coordinates
        (tr ++ [DriverOp.callMethod M_UNPARK []])
    else (d, tr)
  else gotoAfterUnpark ext s d j2000Coordinates tr

/-- TelescopeClientAscom::telescopeGoto, source lines 201-299.  The target
argument is a direction in the standard-epoch (J2000) frame.  The adapter
state itself is not modified by a goto, so only the driver state and the
trace are returned. -/
def telescopeGoto {S V : Type} (ext : Externals S V) (s : TelescopeClientAscom V)
    (d : DriverState S) (j2000Coordinates : V) :
    DriverState S × List (DriverOp S) :=
  if !isInitialized s then (d, [])
  else
    let c := isConnected s d
    if !c.1 then
      let d1 := setConnectedProp d
      let tr1 := c.2 ++ [DriverOp.setProp P_CONNECTED, DriverOp.getProp P_CONNECTED]
      if !d1.connected then (d1, tr1)
      else gotoAfterConnect ext s d1 j2000Coordinates tr1
    else gotoAfterConnect ext s d j2000Coordinates c.2

/-- TelescopeClientAscom::deleteDriver, source lines 318-326: releases the
driver object and nulls the pointer, so isInitialized becomes false. -/
def deleteDriver {V : Type} (s : TelescopeClientAscom V) : TelescopeClientAscom V :=
  { s with initialized := false }

/-- Replace every occurrence of the nonempty pattern pat in a character list
by rep; the fuel argument (at least the length of the list) makes the
recursion structural. -/
def listReplace (pat rep : List Char) : Nat → List Char → List Char
  | _, [] => []
  | 0, s => s
  | fuel + 1, c :: rest =>
    if pat ≠ [] ∧ pat.isPrefixOf (c :: rest) then
      rep ++ listReplace pat rep fuel (List.drop pat.length (c :: rest))
    else c :: listReplace pat rep fuel rest

/-- Decide whether pat occurs as a contiguous sublist of s. -/
def listHasInfix (pat : List Char) : List Char → Bool
  | [] => pat.isPrefixOf []
  | c :: rest => pat.isPrefixOf (c :: rest) || listHasInfix pat rest

/-- Model of QString::arg as used by the source: find the lowest numbered
placeholder marker among %1 .. %9 present in the string and replace every
occurrence of it by the argument.  (The format string of the source uses only
%1 .. %4, and Qt multi-digit markers do not arise there.) -/
def qtArg (s v : String) : String :=
  match ((List.range 9).map (· + 1)).find?
      (fun k => listHasInfix ('%' :: (toString k).data) s.data) with
  | some k =>
    let pat := '%' :: (toString k).data
    String.mk (listReplace pat v.data (s.data.length + 1) s.data)
  | none => s

/-- The format string of the error message built in handleDriverException,
source lines 306-309. -/
def ascomErrorFormat : String :=
  "%1: ASCOM driver error:\nCode: %2\nSource: %3\nDescription: %4"

/-- TelescopeClientAscom::handleDriverException, source lines 301-316: builds
the error message by applying .arg three times (with the name, the code and
the description), releases the driver, and emits the message with the
ascomError signal.  The source ignores its source and help parameters when
building the message. -/
def handleDriverException {V : Type} (s : TelescopeClientAscom V)
    (code : Int) (source desc help : String) :
    TelescopeClientAscom V × String :=
  let errorMessage := qtArg (qtArg (qtArg ascomErrorFormat s.name) (toString code)) desc
  (deleteDriver s, errorMessage)

/-- The TelescopeClientAscom constructor, source lines 42-96.  The flag
instantiated models whether driver->setControl succeeded (driver not null);
each recorded driver access is tagged with whether the driver handle was
still live (not yet released by deleteDriver) at the moment of the access.
When the handle is dead the access is a null-pointer dereference in the
source; the model still reads the data so that control flow can continue. -/
def construct {S V : Type} (name driverId : String) (eq : Equinox)
    (instantiated : Bool) (d : DriverState S) (now : Int) :
    TelescopeClientAscom V × DriverState S × List (Bool × DriverOp S) :=
  if !instantiated then
    ({ initialized := false, equinox := eq, name := name,
       timeToGetPosition := 0, samples := [] }, d, [])
  else
    let tr := [(true, DriverOp.getProp P_CAN_SLEW)]
    let d1 := setConnectedProp d
    let tr := tr ++ [(true, DriverOp.setProp P_CONNECTED),
                     (true, DriverOp.getProp P_CONNECTED)]
    let live1 := d1.connected
    let tr := tr ++ [(live1, DriverOp.getProp P_PARKED)]
    if d1.parked then
      let tr := tr ++ [(live1, DriverOp.getProp P_CAN_UNPARK)]
      if d1.canUnpark then
        ({ initialized := live1, equinox := eq, name := name,
           timeToGetPosition := now + POSITION_REFRESH_INTERVAL, samples := [] },
         d1, tr)
      else
        ({ initialized := false, equinox := eq, name := name,
           timeToGetPosition := now + POSITION_REFRESH_INTERVAL, samples := [] },
         d1, tr)
    else
      ({ initialized := live1, equinox := eq, name := name,
         timeToGetPosition := now + POSITION_REFRESH_INTERVAL, samples := [] },
       d1, tr)

/-- Is this driver operation a read of the reported position (the
RightAscension or Declination property)? -/
def isPositionRead {S : Type} : DriverOp S → Bool
  | DriverOp.getProp n => n == P_RA || n == P_DEC
  | _ => false

/-- Does this trace contain a read of the device position? -/
def readsPosition {S : Type} (tr : List (DriverOp S)) : Bool :=
  tr.any isPositionRead

/-- Is this driver operation a slew command (synchronous or asynchronous)? -/
def isSlewCall {S : Type} : DriverOp S → Bool
  | DriverOp.callMethod m _ => m == M_SLEW || m == M_SLEW_ASYNCHRONOUSLY
  | _ => false

/-- Is this driver operation the unpark command? -/
def isUnparkCall {S : Type} : DriverOp S → Bool
  | DriverOp.callMethod m _ => m == M_UNPARK
  | _ => false

/-- Is this driver operation a write of the Tracking property? -/
def isTrackingWrite {S : Type} : DriverOp S → Bool
  | DriverOp.setProp n => n == P_TRACKING
  | _ => false

/-- The slew commands contained in a trace. -/
def slewCalls {S : Type} (tr : List (DriverOp S)) : List (DriverOp S) :=
  tr.filter isSlewCall

/-- Run a sequence of performCommunication calls; each list entry carries the
three getNow() readings (now, serverTime, captureTime) of that call.  Returns
the poll time and the driver-operation trace of each call in order. -/
def pcRun {S V : Type} (ext : Externals S V) (s : TelescopeClientAscom V)
    (d : DriverState S) : List (Int × Int × Int) → List (Int × List (DriverOp S))
  | [] => []
  | t :: ts =>
    let r := performCommunication ext s d t.1 t.2.1 t.2.2
    (t.1, r.2.2) :: pcRun ext r.1 r.2.1 ts

/-- The times of the calls of a run whose trace reads the device position. -/
def positionReadTimes {S : Type} (run : List (Int × List (DriverOp S))) : List Int :=
  (run.filter (fun e => readsPosition e.2)).map (·.1)

/-- One host-facing adapter call, for stating properties of whole call
sequences. -/
inductive AdapterCall (S V : Type) where
  | isConnectedCall
  | prepareCommunicationCall
  | performCommunicationCall (now serverTime captureTime : Int)
  | telescopeGotoCall (target : V)

/-- Execute one adapter call, returning the new adapter state, the new driver
state and the trace of driver accesses it performed. -/
def runCall {S V : Type} (ext : Externals S V) (s : TelescopeClientAscom V)
    (d : DriverState S) : AdapterCall S V →
    TelescopeClientAscom V × DriverState S × List (DriverOp S)
  | AdapterCall.isConnectedCall => (s, d, (isConnected s d).2)
  | AdapterCall.prepareCommunicationCall => (s, d, [])
  | AdapterCall.performCommunicationCall n st ct =>
    performCommunication ext s d n st ct
  | AdapterCall.telescopeGotoCall t =>
    let r := telescopeGoto ext s d t
    (s, r.1, r.2)

/-- Execute a sequence of adapter calls, collecting the trace of every call. -/
def runCalls {S V : Type} (ext : Externals S V) (s : TelescopeClientAscom V)
    (d : DriverState S) : List (AdapterCall S V) →
    TelescopeClientAscom V × DriverState S × List (List (DriverOp S))
  | [] => (s, d, [])
  | c :: cs =>
    let r1 := runCall ext s d c
    let r2 := runCalls ext r1.1 r1.2.1 cs
    (r2.1, r2.2.1, r1.2.2 :: r2.2.2)

/-- A concrete instantiation of the external collaborators over integer
scalars and integer vector codes, used to evaluate the embedding on concrete
inputs.  The two epoch conversions are mutually inverse translations, so the
two conversion directions are distinguishable. -/
def extInt : Externals Int Int :=
  { hoursToRad := id, degToRad := id, radToHours := id, radToDeg := id,
    spheToRect := fun a b => a + b,
    rectToSphe := fun v => (v, v),
    equinoxEquToJ2000 := fun v => v + 1,
    j2000ToEquinoxEqu := fun v => v - 1 }

/-- A connected, unparked, tracking driver with every capability. -/
def dReady : DriverState Int :=
  { connected := true, parked := false, tracking := true,
    canSlew := true, canSlewAsync := true, canTrack := true, canUnpark := true,
    ra := 0, dec := 0, acceptsConnect := true, acceptsTracking := true }

/-- A driver whose connection attempt fails (Connected reads back false). -/
def dNoConnect : DriverState Int :=
  { dReady with connected := false, acceptsConnect := false }

/-- A connected driver that reports parked. -/
def dParked : DriverState Int :=
  { dReady with parked := true }

/-- A connected, parked driver that can unpark but supports no slew variant. -/
def dNoSlewParked : DriverState Int :=
  { dReady with parked := true, canSlew := false, canSlewAsync := false }

/-- A connected, parked driver that cannot unpark. -/
def dParkedStuck : DriverState Int :=
  { dReady with parked := true, canUnpark := false }

/-- An initialized session in current-epoch (JNow) mode with a due poll. -/
def sJNow : TelescopeClientAscom Int :=
  { initialized := true, equinox := Equinox.EquinoxJNow, name := "T",
    timeToGetPosition := 0, samples := [] }

/-- An initialized session in standard-epoch (J2000) mode with a due poll. -/
def sJ2000 : TelescopeClientAscom Int :=
  { initialized := true, equinox := Equinox.EquinoxJ2000, name := "T",
    timeToGetPosition := 0, samples := [] }

/-- An initialized session whose next poll is scheduled at time 100. -/
def sLater : TelescopeClientAscom Int :=
  { sJ2000 with timeToGetPosition := 100 }

/-- An initialized session whose next poll is scheduled at time 10. -/
def sMid : TelescopeClientAscom Int :=
  { sJ2000 with timeToGetPosition := 10 }

/-- An uninitialized session (null driver handle). -/
def sUninit : TelescopeClientAscom Int :=
  { sJ2000 with initialized := false }

/-- C1: In current-epoch (JNow) mode, ingestion converts the raw reading from
the current-epoch frame to the standard-epoch frame exactly once
(equinoxEquToJ2000 applied once before the sample is stored), but
telescopeGoto also applies equinoxEquToJ2000 — the current-to-standard
conversion — to its target instead of the standard-to-current conversion
j2000ToEquinoxEqu that the claim requires: at a concrete navigator where the
two conversion directions differ, the slew call carries the
wrong-direction-converted coordinates. -/
theorem c1_goto_applies_wrong_direction_conversion :
    (performCommunication extInt sJNow dReady 0 0 0).1.samples
      = [(extInt.equinoxEquToJ2000 (extInt.spheToRect dReady.ra dReady.dec), 0, 0)]
    ∧ (telescopeGoto extInt sJNow dReady 0).2
      = [DriverOp.getProp P_CONNECTED, DriverOp.getProp P_PARKED,
         DriverOp.getProp P_TRACKING, DriverOp.getProp P_CAN_SLEW_ASYNCHRONOUSLY,
         DriverOp.callMethod M_SLEW_ASYNCHRONOUSLY [1, 1]]
    ∧ extInt.equinoxEquToJ2000 0 = 1
    ∧ extInt.j2000ToEquinoxEqu 0 = -1
    ∧ DriverOp.callMethod M_SLEW_ASYNCHRONOUSLY
        [extInt.j2000ToEquinoxEqu 0, extInt.j2000ToEquinoxEqu 0]
      ∉ (telescopeGoto extInt sJNow dReady 0).2 := by
  decide

/-- C2: When the connection attempt in the constructor fails, the constructor
does release the driver and the adapter ends up uninitialized, but it keeps
running: the parked check is performed on the already-released (null) driver
handle, recorded here as the trace entry tagged false. -/
theorem c2_constructor_accesses_released_driver :
    (construct (V := Int) "T" "driver.id" Equinox.EquinoxJ2000 true dNoConnect 0).2.2
      = [(true, DriverOp.getProp P_CAN_SLEW), (true, DriverOp.setProp P_CONNECTED),
         (true, DriverOp.getProp P_CONNECTED), (false, DriverOp.getProp P_PARKED)]
    ∧ (false, DriverOp.getProp P_PARKED)
      ∈ (construct (V := Int) "T" "driver.id" Equinox.EquinoxJ2000 true dNoConnect 0).2.2
    ∧ (construct (V := Int) "T" "driver.id" Equinox.EquinoxJ2000 true dNoConnect 0).1.initialized
      = false := by
  decide

/-- C4: The fault handler applies .arg only three times to a format string
with four placeholders, so the source parameter never reaches the message:
the Source slot receives the description and the Description slot stays as
the literal %4; moreover the literal text reads ASCOM driver error, not
driver error. -/
theorem c4_fault_message_drops_source_and_description :
    (handleDriverException sJNow 5 "SRC" "DESC" "HELP").2
      = "T: ASCOM driver error:\nCode: 5\nSource: DESC\nDescription: %4"
    ∧ (handleDriverException sJNow 5 "SRC" "DESC" "HELP").2
      ≠ "T: driver error:\nCode: 5\nSource: SRC\nDescription: DESC" := by
  decide

/-- C10: Whenever isInitialized is false, isConnected returns false and
performs no driver access at all. -/
theorem c10_uninitialized_isconnected_false {S V : Type}
    (s : TelescopeClientAscom V) (d : DriverState S)
    (h : isInitialized s = false) :
    isConnected s d = (false, []) := by
  simp [isConnected, h]

/-- Witness for c10_uninitialized_isconnected_false at a concrete
uninitialized session. -/
theorem c10_uninitialized_isconnected_false_witness :
    isInitialized sUninit = false ∧ isConnected sUninit dReady = (false, []) :=
  ⟨by decide, c10_uninitialized_isconnected_false sUninit dReady (by decide)⟩

/-- C6 counterexample: with a due poll (schedule at 10, now 50) and a parked
device, performCommunication produces no sample but leaves the next scheduled
poll time at 10 instead of rescheduling it to now plus one interval, because
the parked check precedes the schedule logic.  This refutes the claim that
the next attempt is rescheduled one interval after the current time. -/
theorem c6_parked_poll_not_rescheduled_cex :
    sMid.timeToGetPosition ≤ 50
    ∧ dParked.parked = true
    ∧ (performCommunication extInt sMid dParked 50 50 50).1.samples = sMid.samples
    ∧ (performCommunication extInt sMid dParked 50 50 50).1.timeToGetPosition = 10
    ∧ ¬ (performCommunication extInt sMid dParked 50 50 50).1.timeToGetPosition
        = 50 + POSITION_REFRESH_INTERVAL := by
  decide

/-- C6 amended: when a poll is due and the connected device reports parked,
performCommunication produces no sample and leaves the adapter state —
including the next scheduled poll time — entirely unchanged; the only driver
accesses are the connected and parked reads. -/
theorem c6_parked_poll_leaves_schedule_unchanged {S V : Type} (ext : Externals S V)
    (s : TelescopeClientAscom V) (d : DriverState S) (now st ct : Int)
    (hi : isInitialized s = true) (hc : d.connected = true) (hp : d.parked = true)
    (hdue : s.timeToGetPosition ≤ now) :
    performCommunication ext s d now st ct
      = (s, d, [DriverOp.getProp P_CONNECTED, DriverOp.getProp P_PARKED]) := by
  simp [performCommunication, isConnected, hi, hc, performAfterConnect, hp]

/-- Witness for c6_parked_poll_leaves_schedule_unchanged at a concrete due
poll on a parked driver. -/
theorem c6_parked_poll_leaves_schedule_unchanged_witness :
    performCommunication extInt sMid dParked 50 50 50
      = (sMid, dParked, [DriverOp.getProp P_CONNECTED, DriverOp.getProp P_PARKED]) :=
  c6_parked_poll_leaves_schedule_unchanged extInt sMid dParked 50 50 50
    (by decide) (by decide) (by decide) (by decide)

/-- C7 counterexample: on an initialized session whose next poll is scheduled
at 100, a call at time 0 still reads the Connected and AtPark driver
properties, so the call is not a complete no-op on the driver as the claim
states. -/
theorem c7_early_poll_reads_driver_cex :
    (0 : Int) < sLater.timeToGetPosition
    ∧ (performCommunication extInt sLater dReady 0 0 0).2.2
      = [DriverOp.getProp P_CONNECTED, DriverOp.getProp P_PARKED]
    ∧ (performCommunication extInt sLater dReady 0 0 0).2.2 ≠ [] := by
  decide

/-- C7 amended: on an initialized session, a performCommunication call
strictly before the next scheduled poll time leaves the adapter state (samples
and schedule) unchanged and never reads the device position, but it still
reads the connected and parked properties and may attempt reconnection. -/
theorem c7_early_poll_no_sample_no_reschedule {S V : Type} (ext : Externals S V)
    (s : TelescopeClientAscom V) (d : DriverState S) (now st ct : Int)
    (hi : isInitialized s = true) (hn : now < s.timeToGetPosition) :
    (performCommunication ext s d now st ct).1 = s
    ∧ readsPosition (performCommunication ext s d now st ct).2.2 = false := by
  cases hp : d.parked
  all_goals cases hc : d.connected
  all_goals cases ha : d.acceptsConnect
  all_goals
    simp [performCommunication, isConnected, hi, hc, performAfterConnect,
      setConnectedProp, hp, ha, hn, readsPosition, isPositionRead,
      P_CONNECTED, P_PARKED, P_RA, P_DEC]

/-- Witness for c7_early_poll_no_sample_no_reschedule at a concrete early
call. -/
theorem c7_early_poll_no_sample_no_reschedule_witness :
    (performCommunication extInt sLater dReady 0 0 0).1 = sLater
    ∧ readsPosition (performCommunication extInt sLater dReady 0 0 0).2.2 = false :=
  c7_early_poll_no_sample_no_reschedule extInt sLater dReady 0 0 0
    (by decide) (by decide)

/-- Filtering slew commands distributes over trace concatenation. -/
theorem slewCalls_append {S : Type} (t1 t2 : List (DriverOp S)) :
    slewCalls (t1 ++ t2) = slewCalls t1 ++ slewCalls t2 := by
  simp [slewCalls]

/-- The slew stage issues no slew command when both slew capabilities are
absent. -/
theorem gotoSlew_no_slewcalls {S V : Type} (ext : Externals S V)
    (s : TelescopeClientAscom V) (d : DriverState S) (v : V)
    (tr : List (DriverOp S))
    (h1 : d.canSlewAsync = false) (h2 : d.canSlew = false) :
    slewCalls (gotoSlew ext s d v tr).2 = slewCalls tr := by
  simp [gotoSlew, h1, h2, slewCalls, isSlewCall]

/-- The tracking stage and everything after it issue no slew command when
either both slew capabilities are absent or the device is not tracking and
cannot track. -/
theorem gotoAfterUnpark_no_slewcalls {S V : Type} (ext : Externals S V)
    (s : TelescopeClientAscom V) (d : DriverState S) (v : V)
    (tr : List (DriverOp S))
    (h : (d.canSlewAsync = false ∧ d.canSlew = false)
      ∨ (d.tracking = false ∧ d.canTrack = false)) :
    slewCalls (gotoAfterUnpark ext s d v tr).2 = slewCalls tr := by
  rcases h with ⟨h1, h2⟩ | ⟨h1, h2⟩
  · cases ht : d.tracking
    · cases hct : d.canTrack
      · simp [gotoAfterUnpark, ht, hct, slewCalls, isSlewCall]
      · cases hat : d.acceptsTracking
        · simp [gotoAfterUnpark, ht, hct, setTrackingProp, hat, slewCalls, isSlewCall]
        · have := gotoSlew_no_slewcalls ext s (setTrackingProp d) v
            (tr ++ [DriverOp.getProp P_TRACKING, DriverOp.getProp P_CAN_TRACK,
                    DriverOp.setProp P_TRACKING, DriverOp.getProp P_TRACKING])
            (by simpa [setTrackingProp] using h1)
            (by simpa [setTrackingProp] using h2)
          simp only [gotoAfterUnpark, ht, hct, setTrackingProp, hat] at this ⊢
          simp_all [slewCalls, isSlewCall, setTrackingProp]
    · have := gotoSlew_no_slewcalls ext s d v (tr ++ [DriverOp.getProp P_TRACKING]) h1 h2
      simp only [gotoAfterUnpark, ht]
      simp_all [slewCalls, isSlewCall]
  · simp [gotoAfterUnpark, h1, h2, slewCalls, isSlewCall]

/-- The park stage and everything after it issue no slew command when either
both slew capabilities are absent or tracking is off and unsupported. -/
theorem gotoAfterConnect_no_slewcalls {S V : Type} (ext : Externals S V)
    (s : TelescopeClientAscom V) (d : DriverState S) (v : V)
    (tr : List (DriverOp S))
    (h : (d.canSlewAsync = false ∧ d.canSlew = false)
      ∨ (d.tracking = false ∧ d.canTrack = false)) :
    slewCalls (gotoAfterConnect ext s d v tr).2 = slewCalls tr := by
  cases hp : d.parked
  · have := gotoAfterUnpark_no_slewcalls ext s d v (tr ++ [DriverOp.getProp P_PARKED]) h
    simp only [gotoAfterConnect, hp]
    simp_all [slewCalls, isSlewCall]
  · cases hu : d.canUnpark
    · simp [gotoAfterConnect, hp, hu, slewCalls, isSlewCall]
    · have := gotoAfterUnpark_no_slewcalls ext s (unparkEffect d) v
        (tr ++ [DriverOp.getProp P_PARKED, DriverOp.getProp P_CAN_UNPARK,
                DriverOp.callMethod M_UNPARK []])
        (by simpa [unparkEffect] using h)
      simp only [gotoAfterConnect, hp, hu, unparkEffect] at this ⊢
      simp_all [slewCalls, isSlewCall, M_UNPARK, M_SLEW, M_SLEW_ASYNCHRONOUSLY]

/-- C8 counterexample: a parked, unparkable device with no slew capability at
all: the goto call issues no slew command, but it is not a no-op on the
device — it unparks it (the park state observably changes), refuting the
claim that no observable device state is changed. -/
theorem c8_capability_absent_unparks_cex :
    dNoSlewParked.canSlewAsync = false ∧ dNoSlewParked.canSlew = false
    ∧ dNoSlewParked.parked = true
    ∧ (telescopeGoto extInt sJ2000 dNoSlewParked 0).1.parked = false
    ∧ DriverOp.callMethod M_UNPARK [] ∈ (telescopeGoto extInt sJ2000 dNoSlewParked 0).2
    ∧ slewCalls (telescopeGoto extInt sJ2000 dNoSlewParked 0).2 = [] := by
  decide

/-- C8 amended: when the needed capability is absent (no slew variant
supported, or tracking off and unsupported), the goto command is dropped
silently in the sense that no slew command is ever issued and no error is
surfaced; however the earlier unpark and tracking-enable steps still run, so
observable device state may change. -/
theorem c8_capability_absent_no_slew {S V : Type} (ext : Externals S V)
    (s : TelescopeClientAscom V) (d : DriverState S) (v : V)
    (h : (d.canSlewAsync = false ∧ d.canSlew = false)
      ∨ (d.tracking = false ∧ d.canTrack = false)) :
    slewCalls (telescopeGoto ext s d v).2 = [] := by
  cases hi : s.initialized
  · simp [telescopeGoto, isInitialized, hi, slewCalls]
  · cases hc : d.connected
    · cases ha : d.acceptsConnect
      · simp [telescopeGoto, isConnected, isInitialized, hi, hc,
          setConnectedProp, ha, slewCalls, isSlewCall]
      · have := gotoAfterConnect_no_slewcalls ext s (setConnectedProp d) v
          [DriverOp.getProp P_CONNECTED, DriverOp.setProp P_CONNECTED,
           DriverOp.getProp P_CONNECTED]
          (by simpa [setConnectedProp] using h)
        simp only [telescopeGoto, isConnected, isInitialized, hi, hc,
          setConnectedProp, ha] at this ⊢
        simp_all [slewCalls, isSlewCall, setConnectedProp]
    · have := gotoAfterConnect_no_slewcalls ext s d v
        [DriverOp.getProp P_CONNECTED] h
      simp only [telescopeGoto, isConnected, isInitialized, hi, hc] at this ⊢
      simp_all [slewCalls, isSlewCall]

/-- Witness for c8_capability_absent_no_slew on a slew-incapable driver. -/
theorem c8_capability_absent_no_slew_witness :
    slewCalls (telescopeGoto extInt sJ2000 dNoSlewParked 0).2 = [] :=
  c8_capability_absent_no_slew extInt sJ2000 dNoSlewParked 0
    (Or.inl ⟨by decide, by decide⟩)

/-- C9: When the device reports parked and the can-unpark capability is
absent, a telescopeGoto call issues no slew command, no unpark command and no
write of the Tracking property, and leaves the park and tracking state of the
device unchanged (only a reconnection attempt may touch the driver). -/
theorem c9_parked_unparkable_no_commands {S V : Type} (ext : Externals S V)
    (s : TelescopeClientAscom V) (d : DriverState S) (v : V)
    (hp : d.parked = true) (hu : d.canUnpark = false) :
    slewCalls (telescopeGoto ext s d v).2 = []
    ∧ (telescopeGoto ext s d v).2.filter isUnparkCall = []
    ∧ (telescopeGoto ext s d v).2.filter isTrackingWrite = []
    ∧ (telescopeGoto ext s d v).1.parked = d.parked
    ∧ (telescopeGoto ext s d v).1.tracking = d.tracking := by
  cases hi : s.initialized
  · simp [telescopeGoto, isInitialized, hi, slewCalls]
  · cases hc : d.connected
    · cases ha : d.acceptsConnect
      · simp [telescopeGoto, isConnected, isInitialized, hi, hc,
          setConnectedProp, ha, slewCalls, isSlewCall, isUnparkCall,
          isTrackingWrite, P_CONNECTED, P_TRACKING]
      · simp [telescopeGoto, isConnected, isInitialized, hi, hc,
          setConnectedProp, ha, gotoAfterConnect, hp, hu, slewCalls,
          isSlewCall, isUnparkCall, isTrackingWrite, P_CONNECTED, P_TRACKING,
          P_PARKED, P_CAN_UNPARK]
    · simp [telescopeGoto, isConnected, isInitialized, hi, hc,
        gotoAfterConnect, hp, hu, slewCalls, isSlewCall, isUnparkCall,
        isTrackingWrite, P_CONNECTED, P_TRACKING, P_PARKED, P_CAN_UNPARK]

/-- Witness for c9_parked_unparkable_no_commands on a concrete parked,
unparkable driver. -/
theorem c9_parked_unparkable_no_commands_witness :
    slewCalls (telescopeGoto extInt sJ2000 dParkedStuck 0).2 = []
    ∧ (telescopeGoto extInt sJ2000 dParkedStuck 0).2.filter isUnparkCall = []
    ∧ (telescopeGoto extInt sJ2000 dParkedStuck 0).2.filter isTrackingWrite = []
    ∧ (telescopeGoto extInt sJ2000 dParkedStuck 0).1.parked = dParkedStuck.parked
    ∧ (telescopeGoto extInt sJ2000 dParkedStuck 0).1.tracking = dParkedStuck.tracking :=
  c9_parked_unparkable_no_commands extInt sJ2000 dParkedStuck 0 (by decide) (by decide)

/-- On an uninitialized adapter, every host-facing call is a no-op: it leaves
the adapter and driver state unchanged and performs no driver access. -/
theorem runCall_uninit {S V : Type} (ext : Externals S V)
    (s : TelescopeClientAscom V) (d : DriverState S) (c : AdapterCall S V)
    (h : s.initialized = false) :
    runCall ext s d c = (s, d, []) := by
  cases c <;>
    simp [runCall, performCommunication, telescopeGoto, isConnected,
      isInitialized, h]

/-- On an uninitialized adapter, every sequence of host-facing calls leaves
the state unchanged and produces only empty driver traces. -/
theorem runCalls_uninit {S V : Type} (ext : Externals S V)
    (s : TelescopeClientAscom V) (d : DriverState S)
    (cs : List (AdapterCall S V)) (h : s.initialized = false) :
    runCalls ext s d cs = (s, d, List.replicate cs.length []) := by
  induction cs with
  | nil => simp [runCalls]
  | cons c cs ih =>
    simp [runCalls, runCall_uninit ext s d c h, ih, List.replicate]

/-- C3: After the driver fault handler runs, isInitialized returns false, and
every subsequent sequence of adapter operations (isConnected,
prepareCommunication, performCommunication, telescopeGoto) leaves the state
unchanged — so isInitialized stays false at every later point — and performs
no driver access at all (every trace is empty). -/
theorem c3_fault_is_terminal {S V : Type} (ext : Externals S V)
    (s : TelescopeClientAscom V) (d : DriverState S) (code : Int)
    (source desc help : String) (cs : List (AdapterCall S V)) :
    isInitialized (handleDriverException s code source desc help).1 = false
    ∧ runCalls ext (handleDriverException s code source desc help).1 d cs
      = ((handleDriverException s code source desc help).1, d,
         List.replicate cs.length []) := by
  refine ⟨by simp [handleDriverException, deleteDriver, isInitialized], ?_⟩
  exact runCalls_uninit ext _ d cs (by simp [handleDriverException, deleteDriver])

/-- Schedule characterization of one performCommunication call: a call that
reads the device position was due (now at or past the scheduled time) and
reschedules to now plus one interval; a call that does not read the position
leaves the scheduled time unchanged. -/
theorem performCommunication_schedule {S V : Type} (ext : Externals S V)
    (s : TelescopeClientAscom V) (d : DriverState S) (now st ct : Int) :
    (readsPosition (performCommunication ext s d now st ct).2.2 = true →
      s.timeToGetPosition ≤ now
      ∧ (performCommunication ext s d now st ct).1.timeToGetPosition
        = now + POSITION_REFRESH_INTERVAL)
    ∧ (readsPosition (performCommunication ext s d now st ct).2.2 = false →
      (performCommunication ext s d now st ct).1.timeToGetPosition
        = s.timeToGetPosition) := by
  cases hi : s.initialized
  · simp [performCommunication, isInitialized, hi, readsPosition]
  · by_cases hn : now < s.timeToGetPosition
    · cases hp : d.parked <;> cases hc : d.connected <;> cases ha : d.acceptsConnect <;>
        simp [performCommunication, isConnected, isInitialized, hi, hc, ha,
          setConnectedProp, performAfterConnect, hp, hn, readsPosition,
          isPositionRead, P_CONNECTED, P_PARKED, P_RA, P_DEC]
    · cases hp : d.parked <;> cases hc : d.connected <;> cases ha : d.acceptsConnect <;>
        simp [performCommunication, isConnected, isInitialized, hi, hc, ha,
          setConnectedProp, performAfterConnect, hp, hn, readsPosition,
          isPositionRead, P_CONNECTED, P_PARKED, P_RA, P_DEC,
          le_of_not_lt hn]

/-- The scheduled poll time never decreases across a performCommunication
call. -/
theorem performCommunication_tTGP_mono {S V : Type} (ext : Externals S V)
    (s : TelescopeClientAscom V) (d : DriverState S) (now st ct : Int) :
    s.timeToGetPosition
      ≤ (performCommunication ext s d now st ct).1.timeToGetPosition := by
  rcases performCommunication_schedule ext s d now st ct with ⟨h1, h2⟩
  cases hr : readsPosition (performCommunication ext s d now st ct).2.2
  · rw [h2 hr]
  · rcases h1 hr with ⟨hle, heq⟩
    rw [heq]
    have : (0 : Int) ≤ POSITION_REFRESH_INTERVAL := by decide
    omega

/-- Every position-read time of a run is at or past the starting scheduled
poll time. -/
theorem pcRun_read_times_ge {S V : Type} (ext : Externals S V)
    (s : TelescopeClientAscom V) (d : DriverState S)
    (ts : List (Int × Int × Int)) :
    ∀ x ∈ positionReadTimes (pcRun ext s d ts), s.timeToGetPosition ≤ x := by
  induction ts generalizing s d with
  | nil => simp [pcRun, positionReadTimes]
  | cons t ts ih =>
    intro x hx
    simp only [pcRun, positionReadTimes, List.filter_cons] at hx
    by_cases hr :
        readsPosition (performCommunication ext s d t.1 t.2.1 t.2.2).2.2 = true
    · rw [if_pos (by simpa using hr)] at hx
      simp only [List.map_cons, List.mem_cons] at hx
      rcases hx with rfl | hx
      · exact ((performCommunication_schedule ext s d t.1 t.2.1 t.2.2).1 hr).1
      · exact le_trans (performCommunication_tTGP_mono ext s d t.1 t.2.1 t.2.2)
          (ih _ _ x hx)
    · rw [if_neg (by simpa using hr)] at hx
      exact le_trans (performCommunication_tTGP_mono ext s d t.1 t.2.1 t.2.2)
        (ih _ _ x hx)

/-- Any two position reads of a run of performCommunication calls are at
least one polling interval apart. -/
theorem pcRun_reads_separated {S V : Type} (ext : Externals S V)
    (s : TelescopeClientAscom V) (d : DriverState S)
    (ts : List (Int × Int × Int)) :
    (positionReadTimes (pcRun ext s d ts)).Pairwise
      (fun a b => a + POSITION_REFRESH_INTERVAL ≤ b) := by
  induction ts generalizing s d with
  | nil => simp [pcRun, positionReadTimes]
  | cons t ts ih =>
    simp only [pcRun, positionReadTimes, List.filter_cons]
    by_cases hr :
        readsPosition (performCommunication ext s d t.1 t.2.1 t.2.2).2.2 = true
    · rw [if_pos (by simpa using hr)]
      simp only [List.map_cons]
      refine List.Pairwise.cons ?_ (ih _ _)
      intro b hb
      have hge := pcRun_read_times_ge ext
        (performCommunication ext s d t.1 t.2.1 t.2.2).1
        (performCommunication ext s d t.1 t.2.1 t.2.2).2.1 ts b hb
      have heq := ((performCommunication_schedule ext s d t.1 t.2.1 t.2.2).1 hr).2
      omega
    · rw [if_neg (by simpa using hr)]
      exact ih _ _

/-- C5: For every sequence of performCommunication calls with strictly
increasing poll times, the device position is read at most once per polling
interval: the times of any two calls whose trace reads the RightAscension or
Declination property are at least POSITION_REFRESH_INTERVAL apart.  (The
connected and parked properties are polled on every call; the throttle
governs the position read.) -/
theorem c5_position_reads_throttled {S V : Type} (ext : Externals S V)
    (s : TelescopeClientAscom V) (d : DriverState S)
    (ts : List (Int × Int × Int))
    (hmono : ts.Pairwise (fun a b => a.1 < b.1)) :
    (positionReadTimes (pcRun ext s d ts)).Pairwise
      (fun a b => a + POSITION_REFRESH_INTERVAL ≤ b) :=
  pcRun_reads_separated ext s d ts

/-- Witness for c5_position_reads_throttled: a run with two due polls one
interval apart; both read the position and the read times are the call
times. -/
theorem c5_position_reads_throttled_witness :
    (positionReadTimes (pcRun extInt sJ2000 dReady
        [(0, 0, 0), (5000000, 5000001, 5000002)])).Pairwise
      (fun a b => a + POSITION_REFRESH_INTERVAL ≤ b)
    ∧ positionReadTimes (pcRun extInt sJ2000 dReady
        [(0, 0, 0), (5000000, 5000001, 5000002)]) = [0, 5000000] :=
  ⟨c5_position_reads_throttled extInt sJ2000 dReady
      [(0, 0, 0), (5000000, 5000001, 5000002)] (by decide),
   by decide⟩
